import Mathlib

/-!
Shallow embedding of the point-of-sale statistics aggregator and its HTTP
glue.  The `updateStats` and `getDashboardStats` statics of the `Stats`
mongoose schema are translated to pure Lean functions; the database is an
explicit map from day keys to records, and the clock (`today`, `hour`,
`now`) is an explicit parameter.  The `POST /api/orders` route handler of
`server.js` is translated to a pure function of the request payload and the
abstract outcomes of the two persistence calls it performs.
-/

namespace POS

/-- Character-list test: does the second list start with the first?
Building block for the JS `String.prototype.includes` used by the
category classifier. -/
def charsStartsWith : List Char → List Char → Bool
  | [], _ => true
  | _ :: _, [] => false
  | n :: ns, h :: hs => n == h && charsStartsWith ns hs

/-- Character-list substring test: does the needle occur inside the hay? -/
def charsContains : List Char → List Char → Bool
  | n, [] => charsStartsWith n []
  | n, h :: hs => charsStartsWith n (h :: hs) || charsContains n hs

/-- JS `hay.includes(needle)` on strings. -/
def strIncludes (hay needle : String) : Bool :=
  charsContains needle.data hay.data

/-- JS `s.toLowerCase()`: lower-case every character (same character map as
`String.toLower`, written structurally over the character list). -/
def strToLower (s : String) : String :=
  ⟨s.data.map Char.toLower⟩

/-- A line item as consumed by the aggregator: `{ name, quantity }`
(quantity present — the valid-payload case; the raw payload with possibly
missing fields is modelled separately below). -/
structure Item where
  name : String
  quantity : Nat
deriving DecidableEq, Repr

/-- The order payload handed to `Stats.updateStats`: line items plus the
optional order `type` string. -/
structure OrderPayload where
  items : List Item
  type : Option String
deriving DecidableEq, Repr

/-- The seven fixed category buckets of `categoryStats`. -/
inductive Cat
  | Rice | Sizzling | Party | Drink | Cafe | Milk | Frappe
deriving DecidableEq, Repr

/-- The `categoryStats` sub-document of the `Stats` schema. -/
structure CategoryStats where
  Rice : Nat
  Sizzling : Nat
  Party : Nat
  Drink : Nat
  Cafe : Nat
  Milk : Nat
  Frappe : Nat
deriving DecidableEq, Repr

/-- Schema default for `categoryStats`: every bucket 0. -/
def zeroCategoryStats : CategoryStats :=
  { Rice := 0, Sizzling := 0, Party := 0, Drink := 0, Cafe := 0, Milk := 0, Frappe := 0 }

/-- An entry of the `topProducts` array. -/
structure TopProduct where
  name : String
  quantity : Nat
deriving DecidableEq, Repr

/-- A `Stats` document.  `date` is the normalized day key (an abstract day
index), `hourlyStats` is the hour→count object modelled as an association
list, `lastUpdated` an abstract timestamp. -/
structure StatsRecord where
  date : Nat
  totalOrders : Nat
  ordersToday : Nat
  itemsSold : Nat
  itemsSoldToday : Nat
  dineInOrders : Nat
  takeoutOrders : Nat
  categoryStats : CategoryStats
  topProducts : List TopProduct
  hourlyStats : List (Nat × Nat)
  lastUpdated : Nat
deriving DecidableEq, Repr

/-- Schema default for `hourlyStats`: keys 0–23, each defaulted to 0. -/
def hourlyDefault : List (Nat × Nat) :=
  (List.range 24).map (fun h => (h, 0))

/-- JS read `m[h] || 0` on the hourly object. -/
def hourlyLookup (m : List (Nat × Nat)) (h : Nat) : Nat :=
  (m.lookup h).getD 0

/-- JS write `m[h] = v` on the hourly object: overwrite the key if present,
otherwise add it. -/
def hourlySet : List (Nat × Nat) → Nat → Nat → List (Nat × Nat)
  | [], h, v => [(h, v)]
  | (k, w) :: rest, h, v =>
    if k = h then (h, v) :: rest else (k, w) :: hourlySet rest h v

/-- The ordered keyword classifier of `updateStats` (first match wins);
input is the already lower-cased item name.  The `Drink` condition mirrors
the JS operator precedence `a || b || c && !d`. -/
def classifyItem (itemName : String) : Option Cat :=
  if strIncludes itemName "bulgogi" || strIncludes itemName "lechon" ||
     strIncludes itemName "chicken" || strIncludes itemName "adobo" ||
     strIncludes itemName "shanghai" || strIncludes itemName "fish" ||
     strIncludes itemName "dory" || strIncludes itemName "pork" then
    some .Rice
  else if strIncludes itemName "sizzling" || strIncludes itemName "sisig" ||
     strIncludes itemName "liempo" || strIncludes itemName "porkchop" then
    some .Sizzling
  else if strIncludes itemName "pancit" || strIncludes itemName "spaghetti" ||
     strIncludes itemName "party" then
    some .Party
  else if strIncludes itemName "lemonade" || strIncludes itemName "soda" ||
     (strIncludes itemName "red tea" && !strIncludes itemName "milk") then
    some .Drink
  else if strIncludes itemName "cafe" || strIncludes itemName "americano" ||
     strIncludes itemName "latte" || strIncludes itemName "macchiato" ||
     strIncludes itemName "coffee" then
    some .Cafe
  else if strIncludes itemName "milk tea" || strIncludes itemName "matcha green tea" then
    some .Milk
  else if strIncludes itemName "frappe" || strIncludes itemName "cookies & cream" then
    some .Frappe
  else
    none

/-- Add a quantity to the given bucket of `categoryStats`. -/
def addToCat (cs : CategoryStats) (c : Cat) (q : Nat) : CategoryStats :=
  match c with
  | .Rice => { cs with Rice := cs.Rice + q }
  | .Sizzling => { cs with Sizzling := cs.Sizzling + q }
  | .Party => { cs with Party := cs.Party + q }
  | .Drink => { cs with Drink := cs.Drink + q }
  | .Cafe => { cs with Cafe := cs.Cafe + q }
  | .Milk => { cs with Milk := cs.Milk + q }
  | .Frappe => { cs with Frappe := cs.Frappe + q }

/-- One iteration of the category-classification `forEach` of
`updateStats`: lower-case the name, run the keyword chain, add the item's
quantity to the single matched bucket (or none). -/
def categoryStep (cs : CategoryStats) (item : Item) : CategoryStats :=
  match classifyItem (strToLower item.name) with
  | some c => addToCat cs c item.quantity
  | none => cs

/-- One iteration of the `topProducts` upsert `forEach` of `updateStats`:
`find` the first entry with the item's exact name and add the quantity to
it, else `push` a new entry at the end. -/
def upsertTopProduct : List TopProduct → Item → List TopProduct
  | [], item => [{ name := item.name, quantity := item.quantity }]
  | p :: rest, item =>
    if p.name = item.name then
      { p with quantity := p.quantity + item.quantity } :: rest
    else
      p :: upsertTopProduct rest item

/-- Stable descending insertion: walk past every entry with a strictly
larger quantity, then insert before the rest (so earlier entries win ties,
as the stable JS sort keeps them first). -/
def insertTop (a : TopProduct) : List TopProduct → List TopProduct
  | [] => [a]
  | b :: rest => if a.quantity < b.quantity then b :: insertTop a rest else a :: b :: rest

/-- `stats.topProducts.sort((a, b) => b.quantity - a.quantity)`: the stable
sort descending by quantity, realized as a stable insertion sort (a stable
sort under a total quantity comparison is unique, so this matches the JS
engine's stable sort). -/
def sortTopProducts : List TopProduct → List TopProduct
  | [] => []
  | a :: rest => insertTop a (sortTopProducts rest)

/-- The record built by `new this({ date: today, ... })` when no record for
today exists: cumulative counters and `categoryStats` copied from
yesterday's record when found, all other fields at their schema defaults
(`ordersToday`, `itemsSoldToday` 0, `topProducts` empty, `hourlyStats` all
zero, `lastUpdated` to the current time). -/
def newDayRecord (today : Nat) (yesterdayStats : Option StatsRecord) (now : Nat) : StatsRecord :=
  { date := today
    totalOrders := match yesterdayStats with | some y => y.totalOrders | none => 0
    ordersToday := 0
    itemsSold := match yesterdayStats with | some y => y.itemsSold | none => 0
    itemsSoldToday := 0
    dineInOrders := match yesterdayStats with | some y => y.dineInOrders | none => 0
    takeoutOrders := match yesterdayStats with | some y => y.takeoutOrders | none => 0
    categoryStats := match yesterdayStats with | some y => y.categoryStats | none => zeroCategoryStats
    topProducts := []
    hourlyStats := hourlyDefault
    lastUpdated := now }

/-- Lines 229–247 of the schema file: fetch today's record; if absent,
create one seeded from yesterday's record (`today - 1`). -/
def statsBase (db : Nat → Option StatsRecord) (today now : Nat) : StatsRecord :=
  match db today with
  | some s => s
  | none => newDayRecord today (db (today - 1)) now

/-- `orderData.items.reduce((sum, item) => sum + item.quantity, 0)`. -/
def itemsInOrder (items : List Item) : Nat :=
  items.foldl (fun sum item => sum + item.quantity) 0

/-- `StatsSchema.statics.updateStats`, with the clock explicit: `today` is
the normalized day key, `hour` the `getHours()` value, `now` the wall-clock
timestamp used for `lastUpdated`.  Returns the saved record. -/
def updateStats (db : Nat → Option StatsRecord) (today hour now : Nat)
    (orderData : OrderPayload) : StatsRecord :=
  let stats0 := statsBase db today now
  let n := itemsInOrder orderData.items
  let stats1 := { stats0 with
    totalOrders := stats0.totalOrders + 1
    ordersToday := stats0.ordersToday + 1
    itemsSold := stats0.itemsSold + n
    itemsSoldToday := stats0.itemsSoldToday + n }
  let stats2 :=
    if orderData.type = some "Dine In" then
      { stats1 with dineInOrders := stats1.dineInOrders + 1 }
    else if orderData.type = some "Take Out" then
      { stats1 with takeoutOrders := stats1.takeoutOrders + 1 }
    else
      stats1
  let stats3 := { stats2 with
    hourlyStats := hourlySet stats2.hourlyStats hour (hourlyLookup stats2.hourlyStats hour + 1) }
  let stats4 := { stats3 with
    categoryStats := orderData.items.foldl categoryStep stats3.categoryStats }
  let stats5 := { stats4 with
    topProducts := orderData.items.foldl upsertTopProduct stats4.topProducts }
  let stats6 := { stats5 with
    topProducts := (sortTopProducts stats5.topProducts).take 10 }
  { stats6 with lastUpdated := now }

/-- The response shape of `getDashboardStats`. -/
structure DashboardStats where
  totalOrders : Nat
  totalProducts : Nat
  totalStocks : Nat
  ordersToday : Nat
  itemsSoldToday : Nat
  dineInToday : Nat
  takeoutToday : Nat
  categoryStats : CategoryStats
  hourlyStats : List (Nat × Nat)
  topProducts : List TopProduct
deriving DecidableEq, Repr

/-- `StatsSchema.statics.getDashboardStats`: a pure read of today's record
(the only database access is the `findOne`; nothing is written). -/
def getDashboardStats (db : Nat → Option StatsRecord) (today : Nat) : DashboardStats :=
  match db today with
  | none =>
    { totalOrders := 0
      totalProducts := 0
      totalStocks := 0
      ordersToday := 0
      itemsSoldToday := 0
      dineInToday := 0
      takeoutToday := 0
      categoryStats := zeroCategoryStats
      hourlyStats := []
      topProducts := [] }
  | some stats =>
    let uniqueProducts := stats.topProducts.length
    { totalOrders := stats.totalOrders
      totalProducts := uniqueProducts
      totalStocks := stats.itemsSold
      ordersToday := stats.ordersToday
      itemsSoldToday := stats.itemsSoldToday
      dineInToday := stats.dineInOrders
      takeoutToday := stats.takeoutOrders
      categoryStats := stats.categoryStats
      hourlyStats := stats.hourlyStats
      topProducts := stats.topProducts }

end POS

namespace POS

/-! The `POST /api/orders` route handler of `server.js`, as a pure function
of the request body and the abstract outcomes of the order save and the
stats update. -/

/-- A request-body line item: every field may be absent. -/
structure RawItem where
  name : Option String
  price : Option Nat
  quantity : Option Nat
  image : Option String
deriving DecidableEq, Repr

/-- The request body of `POST /api/orders` (fields the handler looks at). -/
structure RawPayload where
  items : List RawItem
  subtotal : Option Nat
  tax : Option Nat
  total : Option Nat
  type : Option String
deriving DecidableEq, Repr

/-- JS truthiness of an optional number: absent and 0 are falsy. -/
def truthyNum : Option Nat → Bool
  | none => false
  | some n => n != 0

/-- JS truthiness of an optional string: absent and the empty string are
falsy. -/
def truthyStr : Option String → Bool
  | none => false
  | some s => s != ""

/-- JS `v || deflt` for an optional string. -/
def jsOrStr (v : Option String) (deflt : String) : String :=
  match v with
  | some s => if s != "" then s else deflt
  | none => deflt

/-- JS `v || deflt` for an optional number. -/
def jsOrNum (v : Option Nat) (deflt : Nat) : Nat :=
  match v with
  | some n => if n != 0 then n else deflt
  | none => deflt

/-- An item as written into the `Order` document. -/
structure SavedItem where
  name : String
  price : Nat
  quantity : Nat
  image : String
deriving DecidableEq, Repr

/-- The item normalization of `server.js` lines 123–128: defaults applied
to the copy stored in the `Order` document (`quantity: item.quantity || 1`,
so a missing — or zero — quantity becomes 1 there). -/
def normalizeItem (item : RawItem) : SavedItem :=
  { name := jsOrStr item.name "Unknown Item"
    price := jsOrNum item.price 0
    quantity := jsOrNum item.quantity 1
    image := jsOrStr item.image "default_food.jpg" }

/-- Everything observable about one run of the `POST /api/orders` handler:
the HTTP response, the items persisted in the `Order` document (if the save
happened), the payload object passed to `Stats.updateStats` (if the call
was reached), and the stats error swallowed by the inner `catch` (if any). -/
structure ApiOutcome where
  status : Nat
  success : Bool
  orderId : Option Nat
  message : String
  savedItems : Option (List SavedItem)
  statsArg : Option RawPayload
  statsErrorLogged : Option String
deriving DecidableEq, Repr

/-- The `POST /api/orders` handler.  `saveResult` abstracts `order.save()`
(`.ok id` = saved with that id), `statsResult` abstracts the
`Stats.updateStats` call.  The handler mutates `orderData.type` before both
calls, builds the `Order` from normalized copies of the items, passes the
(mutated) raw payload itself to `Stats.updateStats`, catches and logs a
stats failure, and answers success as soon as the save succeeded. -/
def postOrderHandler (orderData : RawPayload) (saveResult : Except String Nat)
    (statsResult : Except String Unit) : ApiOutcome :=
  if orderData.items.length = 0 then
    { status := 400, success := false, orderId := none, message := "No items in order",
      savedItems := none, statsArg := none, statsErrorLogged := none }
  else if !truthyNum orderData.total then
    { status := 400, success := false, orderId := none, message := "Total amount is required",
      savedItems := none, statsArg := none, statsErrorLogged := none }
  else
    let orderData :=
      if truthyStr orderData.type then orderData
      else { orderData with type := some "Dine In" }
    match saveResult with
    | .error e =>
      { status := 500, success := false, orderId := none, message := e,
        savedItems := none, statsArg := none, statsErrorLogged := none }
    | .ok savedId =>
      let logged := match statsResult with
        | .ok _ => none
        | .error statsError => some statsError
      { status := 200, success := true, orderId := some savedId,
        message := "Payment and order processed successfully",
        savedItems := some (orderData.items.map normalizeItem),
        statsArg := some orderData,
        statsErrorLogged := logged }

/-- JS addition on number-or-NaN values (`none` plays NaN / `undefined`):
`undefined` or NaN on either side yields NaN. -/
def jsNumAdd : Option Nat → Option Nat → Option Nat
  | some a, some b => some (a + b)
  | _, _ => none

/-- The quantity sum `reduce((sum, item) => sum + item.quantity, 0)` as it
actually runs on a raw payload inside `updateStats`: a missing quantity
makes the accumulator NaN. -/
def jsSumQuantities (items : List RawItem) : Option Nat :=
  items.foldl (fun sum item => jsNumAdd sum item.quantity) (some 0)

end POS

namespace POS

/-! Auxiliary definitions used to state the properties: bucket projections,
`topProducts` lookup, and the concrete scenarios the counterexamples and
witnesses evaluate. -/

/-- Projection of one bucket of `categoryStats`. -/
def catGet (cs : CategoryStats) : Cat → Nat
  | .Rice => cs.Rice
  | .Sizzling => cs.Sizzling
  | .Party => cs.Party
  | .Drink => cs.Drink
  | .Cafe => cs.Cafe
  | .Milk => cs.Milk
  | .Frappe => cs.Frappe

/-- The quantity one line item contributes to one bucket: its quantity if
the classifier sends it there, 0 otherwise. -/
def catContrib (c : Cat) (item : Item) : Nat :=
  if classifyItem (strToLower item.name) = some c then item.quantity else 0

/-- The quantity recorded for a product name in a `topProducts` list (the
first entry with that exact name), if any. -/
def topQuantityOf (tops : List TopProduct) (name : String) : Option Nat :=
  match tops.find? (fun p => p.name = name) with
  | some p => some p.quantity
  | none => none

/-- Total quantity of a given product name across a list of line items. -/
def soldTotalIn (name : String) (items : List Item) : Nat :=
  (items.filter (fun it => it.name = name)).foldl (fun s it => s + it.quantity) 0

/-- Concrete yesterday record with `totalOrders = 5` (other fields
arbitrary), for the day-rollover scenario. -/
def c3yesterday : StatsRecord :=
  { date := 0, totalOrders := 5, ordersToday := 3, itemsSold := 7, itemsSoldToday := 2,
    dineInOrders := 4, takeoutOrders := 1, categoryStats := zeroCategoryStats,
    topProducts := [], hourlyStats := hourlyDefault, lastUpdated := 0 }

/-- Concrete prior-day record whose hour-5 count is 3, for the
`hourlyStats` carry-forward question. -/
def c4yesterday : StatsRecord :=
  { date := 0, totalOrders := 5, ordersToday := 2, itemsSold := 9, itemsSoldToday := 3,
    dineInOrders := 4, takeoutOrders := 1, categoryStats := zeroCategoryStats,
    topProducts := [], hourlyStats := hourlySet hourlyDefault 5 3, lastUpdated := 0 }

/-- Database holding only the prior-day record `c4yesterday` at day key 0. -/
def c4db : Nat → Option StatsRecord :=
  fun d => if d = 0 then some c4yesterday else none

/-- A one-item order payload for the rollover scenario. -/
def c4payload : OrderPayload :=
  { items := [{ name := "Plain Rice", quantity := 1 }], type := some "Dine In" }

/-- Concrete record used to witness the dashboard projection. -/
def c6record : StatsRecord :=
  { date := 0, totalOrders := 12, ordersToday := 2, itemsSold := 30, itemsSoldToday := 5,
    dineInOrders := 8, takeoutOrders := 4,
    categoryStats := { Rice := 6, Sizzling := 2, Party := 0, Drink := 3, Cafe := 9,
                       Milk := 0, Frappe := 1 },
    topProducts := [{ name := "Cafe Latte Tall", quantity := 9 }], hourlyStats := hourlyDefault,
    lastUpdated := 0 }

/-- A well-formed request body, for the handler witnesses. -/
def c7raw : RawPayload :=
  { items := [{ name := some "Cafe Latte Tall", price := some 108, quantity := some 2,
                image := none }],
    subtotal := some 216, tax := none, total := some 216, type := some "Take Out" }

/-- A request body whose single line item is missing its quantity. -/
def c8raw : RawPayload :=
  { items := [{ name := some "Mystery Meal", price := some 100, quantity := none,
                image := none }],
    subtotal := none, tax := none, total := some 100, type := some "Dine In" }

/-- A request body with no `type` field (and another item missing its
quantity is not needed here). -/
def c9raw : RawPayload :=
  { items := [{ name := some "Pork Shanghai", price := some 128, quantity := some 1,
                image := none }],
    subtotal := none, tax := none, total := some 128, type := none }

/-- First order of the truncation scenario: eleven distinct products, the
product "P" with the smallest quantity. -/
def c10payload1 : OrderPayload :=
  { items := [⟨"P", 1⟩, ⟨"B1", 2⟩, ⟨"B2", 2⟩, ⟨"B3", 2⟩, ⟨"B4", 2⟩, ⟨"B5", 2⟩,
              ⟨"B6", 2⟩, ⟨"B7", 2⟩, ⟨"B8", 2⟩, ⟨"B9", 2⟩, ⟨"B10", 2⟩],
    type := none }

/-- Today's record after the first truncation-scenario order (empty
database, day key 0). -/
def c10rec1 : StatsRecord :=
  updateStats (fun _ => none) 0 9 0 c10payload1

/-- Database holding only `c10rec1` at day key 0. -/
def c10db1 : Nat → Option StatsRecord :=
  fun d => if d = 0 then some c10rec1 else none

/-- Second order of the truncation scenario: product "P" again, quantity 3. -/
def c10payload2 : OrderPayload :=
  { items := [⟨"P", 3⟩], type := none }

/-- Today's record after the second truncation-scenario order. -/
def c10rec2 : StatsRecord :=
  updateStats c10db1 0 10 0 c10payload2

/-! Projection lemmas: each field of the record returned by `updateStats`,
expressed against the base record (today's record, or the freshly created
seeded one). -/

lemma updateStats_totalOrders (db : Nat → Option StatsRecord) (today hour now : Nat)
    (p : OrderPayload) :
    (updateStats db today hour now p).totalOrders = (statsBase db today now).totalOrders + 1 := by
  unfold updateStats
  split <;> first | rfl | (split <;> rfl)

lemma updateStats_ordersToday (db : Nat → Option StatsRecord) (today hour now : Nat)
    (p : OrderPayload) :
    (updateStats db today hour now p).ordersToday = (statsBase db today now).ordersToday + 1 := by
  unfold updateStats
  split <;> first | rfl | (split <;> rfl)

lemma updateStats_itemsSold (db : Nat → Option StatsRecord) (today hour now : Nat)
    (p : OrderPayload) :
    (updateStats db today hour now p).itemsSold
      = (statsBase db today now).itemsSold + itemsInOrder p.items := by
  unfold updateStats
  split <;> first | rfl | (split <;> rfl)

lemma updateStats_itemsSoldToday (db : Nat → Option StatsRecord) (today hour now : Nat)
    (p : OrderPayload) :
    (updateStats db today hour now p).itemsSoldToday
      = (statsBase db today now).itemsSoldToday + itemsInOrder p.items := by
  unfold updateStats
  split <;> first | rfl | (split <;> rfl)

lemma updateStats_topProducts (db : Nat → Option StatsRecord) (today hour now : Nat)
    (p : OrderPayload) :
    (updateStats db today hour now p).topProducts
      = (sortTopProducts (p.items.foldl upsertTopProduct (statsBase db today now).topProducts)).take 10 := by
  unfold updateStats
  split <;> first | rfl | (split <;> rfl)

lemma updateStats_categoryStats (db : Nat → Option StatsRecord) (today hour now : Nat)
    (p : OrderPayload) :
    (updateStats db today hour now p).categoryStats
      = p.items.foldl categoryStep (statsBase db today now).categoryStats := by
  unfold updateStats
  split <;> first | rfl | (split <;> rfl)

lemma updateStats_hourlyStats (db : Nat → Option StatsRecord) (today hour now : Nat)
    (p : OrderPayload) :
    (updateStats db today hour now p).hourlyStats
      = hourlySet (statsBase db today now).hourlyStats hour
          (hourlyLookup (statsBase db today now).hourlyStats hour + 1) := by
  unfold updateStats
  split <;> first | rfl | (split <;> rfl)

lemma updateStats_dineInOrders_of_dineIn (db : Nat → Option StatsRecord) (today hour now : Nat)
    (p : OrderPayload) (h : p.type = some "Dine In") :
    (updateStats db today hour now p).dineInOrders = (statsBase db today now).dineInOrders + 1 := by
  unfold updateStats
  simp [h]

lemma updateStats_takeoutOrders_of_dineIn (db : Nat → Option StatsRecord) (today hour now : Nat)
    (p : OrderPayload) (h : p.type = some "Dine In") :
    (updateStats db today hour now p).takeoutOrders = (statsBase db today now).takeoutOrders := by
  unfold updateStats
  simp [h]

/-! Lemmas about the hourly association list. -/

lemma lookup_cons_self (h w : Nat) (l : List (Nat × Nat)) :
    List.lookup h ((h, w) :: l) = some w := by
  rw [List.lookup_cons]
  rw [show (h == h) = true by simp]

lemma lookup_cons_ne (k h w : Nat) (l : List (Nat × Nat)) (hk : h ≠ k) :
    List.lookup h ((k, w) :: l) = List.lookup h l := by
  rw [List.lookup_cons]
  rw [show (h == k) = false by simp [hk]]

lemma hourlyLookup_hourlySet_self (m : List (Nat × Nat)) (h v : Nat) :
    hourlyLookup (hourlySet m h v) h = v := by
  induction m with
  | nil => simp [hourlySet, hourlyLookup, lookup_cons_self]
  | cons kw rest ih =>
    obtain ⟨k, w⟩ := kw
    by_cases hk : k = h
    · subst hk
      simp [hourlySet, hourlyLookup, lookup_cons_self]
    · simp only [hourlySet, if_neg hk]
      unfold hourlyLookup
      rw [lookup_cons_ne k h w _ (Ne.symm hk)]
      exact ih

lemma hourlyLookup_hourlySet_ne (m : List (Nat × Nat)) (h h' v : Nat) (hne : h' ≠ h) :
    hourlyLookup (hourlySet m h v) h' = hourlyLookup m h' := by
  induction m with
  | nil => simp [hourlySet, hourlyLookup, lookup_cons_ne _ _ _ _ hne]
  | cons kw rest ih =>
    obtain ⟨k, w⟩ := kw
    by_cases hk : k = h
    · subst hk
      unfold hourlyLookup
      rw [hourlySet, if_pos rfl, lookup_cons_ne _ _ _ _ hne, lookup_cons_ne _ _ _ _ hne]
    · simp only [hourlySet, if_neg hk]
      by_cases hk' : h' = k
      · subst hk'
        unfold hourlyLookup
        rw [lookup_cons_self, lookup_cons_self]
      · unfold hourlyLookup
        rw [lookup_cons_ne _ _ _ _ hk', lookup_cons_ne _ _ _ _ hk']
        exact ih

lemma hourlyLookup_zeroMap (l : List Nat) (h : Nat) :
    hourlyLookup (l.map (fun k => (k, 0))) h = 0 := by
  induction l with
  | nil => simp [hourlyLookup]
  | cons k rest ih =>
    by_cases hk : h = k
    · subst hk
      simp [hourlyLookup, lookup_cons_self]
    · unfold hourlyLookup
      rw [List.map_cons, lookup_cons_ne _ _ _ _ hk]
      exact ih

lemma hourlyLookup_hourlyDefault (h : Nat) : hourlyLookup hourlyDefault h = 0 :=
  hourlyLookup_zeroMap (List.range 24) h

end POS

namespace POS

/-! Category decomposition: each classification step adds the item's
contribution to exactly one bucket. -/

lemma catGet_addToCat (cs : CategoryStats) (c c' : Cat) (q : Nat) :
    catGet (addToCat cs c q) c' = catGet cs c' + (if c = c' then q else 0) := by
  cases c <;> cases c' <;> simp [addToCat, catGet]

lemma catGet_categoryStep (cs : CategoryStats) (item : Item) (c : Cat) :
    catGet (categoryStep cs item) c = catGet cs c + catContrib c item := by
  unfold categoryStep catContrib
  cases h : classifyItem (strToLower item.name) with
  | none => simp
  | some c0 =>
    rw [catGet_addToCat]
    by_cases hc : c0 = c
    · subst hc; simp
    · simp [hc]

lemma catGet_foldl (l : List Item) (cs : CategoryStats) (c : Cat) :
    catGet (l.foldl categoryStep cs) c = catGet cs c + (l.map (catContrib c)).sum := by
  induction l generalizing cs with
  | nil => simp
  | cons it rest ih =>
    rw [List.foldl_cons, ih, catGet_categoryStep, List.map_cons, List.sum_cons]
    omega

/-! The stable descending insertion sort: membership, sortedness, length. -/

lemma mem_insertTop (x a : TopProduct) (l : List TopProduct) :
    x ∈ insertTop a l ↔ x = a ∨ x ∈ l := by
  induction l with
  | nil => simp [insertTop]
  | cons b rest ih =>
    unfold insertTop
    by_cases hab : a.quantity < b.quantity
    · rw [if_pos hab]
      simp only [List.mem_cons, ih]
      tauto
    · rw [if_neg hab]
      simp

lemma sorted_insertTop (a : TopProduct) (l : List TopProduct)
    (h : List.Pairwise (fun x y : TopProduct => y.quantity ≤ x.quantity) l) :
    List.Pairwise (fun x y : TopProduct => y.quantity ≤ x.quantity) (insertTop a l) := by
  induction l with
  | nil => simp [insertTop]
  | cons b rest ih =>
    rw [List.pairwise_cons] at h
    unfold insertTop
    by_cases hab : a.quantity < b.quantity
    · rw [if_pos hab, List.pairwise_cons]
      refine ⟨?_, ih h.2⟩
      intro x hx
      rcases (mem_insertTop x a rest).mp hx with rfl | hx2
      · omega
      · exact h.1 x hx2
    · rw [if_neg hab, List.pairwise_cons]
      refine ⟨?_, List.pairwise_cons.mpr h⟩
      intro x hx
      rcases List.mem_cons.mp hx with rfl | hx2
      · omega
      · exact Nat.le_trans (h.1 x hx2) (by omega)

lemma sorted_sortTopProducts (l : List TopProduct) :
    List.Pairwise (fun x y : TopProduct => y.quantity ≤ x.quantity) (sortTopProducts l) := by
  induction l with
  | nil => simp [sortTopProducts]
  | cons a rest ih => exact sorted_insertTop a _ ih

lemma length_insertTop (a : TopProduct) (l : List TopProduct) :
    (insertTop a l).length = l.length + 1 := by
  induction l with
  | nil => rfl
  | cons b rest ih =>
    unfold insertTop
    by_cases hab : a.quantity < b.quantity
    · rw [if_pos hab]
      simp [ih]
    · rw [if_neg hab]
      simp

/-! Quantity sums. -/

lemma foldl_add_quantity (l : List Item) (a : Nat) :
    l.foldl (fun s it => s + it.quantity) a = a + (l.map Item.quantity).sum := by
  induction l generalizing a with
  | nil => simp
  | cons it rest ih =>
    rw [List.foldl_cons, ih, List.map_cons, List.sum_cons]
    omega

lemma itemsInOrder_eq_sum (l : List Item) :
    itemsInOrder l = (l.map Item.quantity).sum := by
  unfold itemsInOrder
  rw [foldl_add_quantity]
  omega

/-! NaN propagation through the raw quantity sum. -/

lemma jsNumAdd_none_left (x : Option Nat) : jsNumAdd none x = none := by
  cases x <;> rfl

lemma jsNumAdd_none_right (x : Option Nat) : jsNumAdd x none = none := by
  cases x <;> rfl

lemma jsSum_foldl_none (l : List RawItem) :
    l.foldl (fun sum item => jsNumAdd sum item.quantity) none = none := by
  induction l with
  | nil => rfl
  | cons b rest ih =>
    rw [List.foldl_cons, jsNumAdd_none_left]
    exact ih

lemma jsSum_foldl_missing (l : List RawItem) (acc : Option Nat)
    (h : ∃ it ∈ l, it.quantity = none) :
    l.foldl (fun sum item => jsNumAdd sum item.quantity) acc = none := by
  induction l generalizing acc with
  | nil => simp at h
  | cons b rest ih =>
    rw [List.foldl_cons]
    rcases h with ⟨it, hmem, hq⟩
    rcases List.mem_cons.mp hmem with rfl | hmem2
    · rw [hq, jsNumAdd_none_right]
      exact jsSum_foldl_none rest
    · exact ih _ ⟨it, hmem2, hq⟩

lemma jsSumQuantities_missing (l : List RawItem) (h : ∃ it ∈ l, it.quantity = none) :
    jsSumQuantities l = none :=
  jsSum_foldl_missing l (some 0) h

/-! JS truthiness of the `type` string. -/

lemma truthyStr_true_iff (t : Option String) :
    truthyStr t = true ↔ ∃ s, t = some s ∧ s ≠ "" := by
  cases t with
  | none => simp [truthyStr]
  | some s => simp [truthyStr]

/-! The `topProducts` upsert on an absent name appends a fresh entry. -/

lemma upsertTopProduct_append_of_notMem (tops : List TopProduct) (it : Item)
    (h : ∀ tp ∈ tops, tp.name ≠ it.name) :
    upsertTopProduct tops it = tops ++ [{ name := it.name, quantity := it.quantity }] := by
  induction tops with
  | nil => rfl
  | cons tp rest ih =>
    unfold upsertTopProduct
    rw [if_neg (h tp (List.mem_cons_self tp rest))]
    rw [ih (fun x hx => h x (List.mem_cons_of_mem tp hx))]
    rfl

end POS

namespace POS

/-- C1: for every valid order payload (non-empty items, positive
quantities), one `updateStats` call adds exactly 1 to `totalOrders` and
`ordersToday` and exactly the payload's quantity sum to `itemsSold` and
`itemsSoldToday`, relative to the base record it starts from (today's
record, or the freshly seeded one). -/
theorem updateStats_increments_counters (db : Nat → Option StatsRecord)
    (today hour now : Nat) (p : OrderPayload)
    (hne : p.items ≠ []) (hpos : ∀ it ∈ p.items, 0 < it.quantity) :
    (updateStats db today hour now p).totalOrders = (statsBase db today now).totalOrders + 1 ∧
    (updateStats db today hour now p).ordersToday = (statsBase db today now).ordersToday + 1 ∧
    (updateStats db today hour now p).itemsSold
      = (statsBase db today now).itemsSold + (p.items.map Item.quantity).sum ∧
    (updateStats db today hour now p).itemsSoldToday
      = (statsBase db today now).itemsSoldToday + (p.items.map Item.quantity).sum :=
  ⟨updateStats_totalOrders db today hour now p,
   updateStats_ordersToday db today hour now p,
   by rw [updateStats_itemsSold, itemsInOrder_eq_sum],
   by rw [updateStats_itemsSoldToday, itemsInOrder_eq_sum]⟩

/-- C1 witness: the theorem applied to a concrete valid payload. -/
theorem updateStats_increments_counters_witness :
    (updateStats (fun _ => none) 0 9 0 ⟨[⟨"Cafe Latte Tall", 2⟩], some "Dine In"⟩).totalOrders
      = (statsBase (fun _ => none) 0 0).totalOrders + 1 ∧
    (updateStats (fun _ => none) 0 9 0 ⟨[⟨"Cafe Latte Tall", 2⟩], some "Dine In"⟩).ordersToday
      = (statsBase (fun _ => none) 0 0).ordersToday + 1 ∧
    (updateStats (fun _ => none) 0 9 0 ⟨[⟨"Cafe Latte Tall", 2⟩], some "Dine In"⟩).itemsSold
      = (statsBase (fun _ => none) 0 0).itemsSold
        + (([⟨"Cafe Latte Tall", 2⟩] : List Item).map Item.quantity).sum ∧
    (updateStats (fun _ => none) 0 9 0 ⟨[⟨"Cafe Latte Tall", 2⟩], some "Dine In"⟩).itemsSoldToday
      = (statsBase (fun _ => none) 0 0).itemsSoldToday
        + (([⟨"Cafe Latte Tall", 2⟩] : List Item).map Item.quantity).sum :=
  updateStats_increments_counters (fun _ => none) 0 9 0 ⟨[⟨"Cafe Latte Tall", 2⟩], some "Dine In"⟩
    (by decide) (by decide)

/-- C2: after any `updateStats` call, `topProducts` has at most 10 entries
and is sorted descending by quantity, whatever the starting state. -/
theorem updateStats_topProducts_bounded_sorted (db : Nat → Option StatsRecord)
    (today hour now : Nat) (p : OrderPayload) :
    (updateStats db today hour now p).topProducts.length ≤ 10 ∧
    List.Pairwise (fun a b : TopProduct => b.quantity ≤ a.quantity)
      (updateStats db today hour now p).topProducts := by
  rw [updateStats_topProducts]
  constructor
  · exact List.length_take_le 10 _
  · exact List.Pairwise.sublist (List.take_sublist 10 _) (sorted_sortTopProducts _)

/-- C3: with no record for today and yesterday's record holding
`totalOrders = 5`, the first call of the day produces `totalOrders = 6`
and `ordersToday = 1`. -/
theorem updateStats_first_of_day_seeding (db : Nat → Option StatsRecord)
    (today hour now : Nat) (p : OrderPayload) (y : StatsRecord)
    (h0 : db today = none) (h1 : db (today - 1) = some y) (h5 : y.totalOrders = 5) :
    (updateStats db today hour now p).totalOrders = 6 ∧
    (updateStats db today hour now p).ordersToday = 1 := by
  have hbase : statsBase db today now = newDayRecord today (some y) now := by
    unfold statsBase
    rw [h0, h1]
  refine ⟨?_, ?_⟩
  · rw [updateStats_totalOrders, hbase]
    show y.totalOrders + 1 = 6
    omega
  · rw [updateStats_ordersToday, hbase]
    rfl

/-- C3 witness: the theorem applied to the concrete yesterday record. -/
theorem updateStats_first_of_day_seeding_witness :
    (updateStats (fun d => if d = 0 then some c3yesterday else none) 1 7 0
        ⟨[⟨"Plain Rice", 1⟩], some "Dine In"⟩).totalOrders = 6 ∧
    (updateStats (fun d => if d = 0 then some c3yesterday else none) 1 7 0
        ⟨[⟨"Plain Rice", 1⟩], some "Dine In"⟩).ordersToday = 1 :=
  updateStats_first_of_day_seeding (fun d => if d = 0 then some c3yesterday else none) 1 7 0
    ⟨[⟨"Plain Rice", 1⟩], some "Dine In"⟩ c3yesterday (by decide) (by decide) (by decide)

/-- C4 counterexample: yesterday's record has 3 orders at hour 5, today has
no record; the first call of today (at hour 7) yields a record whose hour-5
count is 0, not 3 — `hourlyStats` is not seeded from the prior day. -/
theorem hourlyStats_not_carried_counterexample :
    c4db 1 = none ∧
    c4db 0 = some c4yesterday ∧
    hourlyLookup c4yesterday.hourlyStats 5 = 3 ∧
    hourlyLookup (updateStats c4db 1 7 0 c4payload).hourlyStats 5 = 0 ∧
    hourlyLookup (updateStats c4db 1 7 0 c4payload).hourlyStats 5
      ≠ hourlyLookup c4yesterday.hourlyStats 5 := by
  refine ⟨rfl, rfl, by decide, by decide, by decide⟩

/-- C4 amended: when a new day's record is created, `hourlyStats` is NOT
carried forward — it starts from the all-zero schema default, so after the
first call of the day only the current hour holds 1 and every other hour
holds 0 (it behaves as a per-day counter at day-record creation, contrary
to the carried-forward description). -/
theorem hourlyStats_reset_on_new_day (db : Nat → Option StatsRecord)
    (today hour now h2 : Nat) (p : OrderPayload)
    (h0 : db today = none) (hne : h2 ≠ hour) :
    (statsBase db today now).hourlyStats = hourlyDefault ∧
    hourlyLookup (updateStats db today hour now p).hourlyStats hour = 1 ∧
    hourlyLookup (updateStats db today hour now p).hourlyStats h2 = 0 := by
  have hbase : (statsBase db today now).hourlyStats = hourlyDefault := by
    unfold statsBase
    rw [h0]
    rfl
  refine ⟨hbase, ?_, ?_⟩
  · rw [updateStats_hourlyStats, hbase, hourlyLookup_hourlySet_self, hourlyLookup_hourlyDefault]
  · rw [updateStats_hourlyStats, hbase, hourlyLookup_hourlySet_ne _ _ _ _ hne,
      hourlyLookup_hourlyDefault]

/-- C4 amended witness. -/
theorem hourlyStats_reset_on_new_day_witness :
    (statsBase c4db 1 0).hourlyStats = hourlyDefault ∧
    hourlyLookup (updateStats c4db 1 7 0 c4payload).hourlyStats 7 = 1 ∧
    hourlyLookup (updateStats c4db 1 7 0 c4payload).hourlyStats 5 = 0 :=
  hourlyStats_reset_on_new_day c4db 1 7 0 5 c4payload (by decide) (by decide)

/-- C5: an item literally named "Sizzling Pork Sisig" with quantity `q`
adds `q` to the Rice bucket and nothing to the Sizzling bucket, wherever it
occurs in the payload (the Rice keyword "pork" is tested first and first
match wins). -/
theorem sisig_adds_to_Rice_not_Sizzling (db : Nat → Option StatsRecord)
    (today hour now : Nat) (ty : Option String) (l1 l2 : List Item) (q : Nat) :
    classifyItem (strToLower "Sizzling Pork Sisig") = some Cat.Rice ∧
    (updateStats db today hour now ⟨l1 ++ ⟨"Sizzling Pork Sisig", q⟩ :: l2, ty⟩).categoryStats.Rice
      = (updateStats db today hour now ⟨l1 ++ l2, ty⟩).categoryStats.Rice + q ∧
    (updateStats db today hour now ⟨l1 ++ ⟨"Sizzling Pork Sisig", q⟩ :: l2, ty⟩).categoryStats.Sizzling
      = (updateStats db today hour now ⟨l1 ++ l2, ty⟩).categoryStats.Sizzling := by
  have hrice : catContrib Cat.Rice ⟨"Sizzling Pork Sisig", q⟩ = q := by
    unfold catContrib
    rw [if_pos (by decide : classifyItem (strToLower "Sizzling Pork Sisig") = some Cat.Rice)]
  have hsizz : catContrib Cat.Sizzling ⟨"Sizzling Pork Sisig", q⟩ = 0 := by
    unfold catContrib
    rw [if_neg (by decide : ¬ classifyItem (strToLower "Sizzling Pork Sisig") = some Cat.Sizzling)]
  refine ⟨by decide, ?_, ?_⟩
  · have h1 := catGet_foldl (l1 ++ ⟨"Sizzling Pork Sisig", q⟩ :: l2)
      ((statsBase db today now).categoryStats) Cat.Rice
    have h2 := catGet_foldl (l1 ++ l2) ((statsBase db today now).categoryStats) Cat.Rice
    rw [updateStats_categoryStats, updateStats_categoryStats]
    show catGet ((l1 ++ ⟨"Sizzling Pork Sisig", q⟩ :: l2).foldl categoryStep
        (statsBase db today now).categoryStats) Cat.Rice
      = catGet ((l1 ++ l2).foldl categoryStep (statsBase db today now).categoryStats) Cat.Rice + q
    rw [h1, h2]
    simp [List.map_append, List.sum_append, hrice]
    omega
  · have h1 := catGet_foldl (l1 ++ ⟨"Sizzling Pork Sisig", q⟩ :: l2)
      ((statsBase db today now).categoryStats) Cat.Sizzling
    have h2 := catGet_foldl (l1 ++ l2) ((statsBase db today now).categoryStats) Cat.Sizzling
    rw [updateStats_categoryStats, updateStats_categoryStats]
    show catGet ((l1 ++ ⟨"Sizzling Pork Sisig", q⟩ :: l2).foldl categoryStep
        (statsBase db today now).categoryStats) Cat.Sizzling
      = catGet ((l1 ++ l2).foldl categoryStep (statsBase db today now).categoryStats) Cat.Sizzling
    rw [h1, h2]
    simp [List.map_append, List.sum_append, hsizz]

end POS

namespace POS

/-- C6: `getDashboardStats` returns the all-zero default shape when no
record exists for today, and otherwise projects the record: `totalProducts`
is the `topProducts` length, `totalStocks` the cumulative `itemsSold`,
`dineInToday`/`takeoutToday` the cumulative type counters, the rest taken
unchanged.  (The embedding is a pure function of the store: the only
database access is the `findOne`, so the operation has no side effects.) -/
theorem getDashboardStats_projection (db : Nat → Option StatsRecord) (today : Nat) :
    (db today = none →
      getDashboardStats db today =
        { totalOrders := 0, totalProducts := 0, totalStocks := 0, ordersToday := 0,
          itemsSoldToday := 0, dineInToday := 0, takeoutToday := 0,
          categoryStats := zeroCategoryStats, hourlyStats := [], topProducts := [] }) ∧
    (∀ s : StatsRecord, db today = some s →
      (getDashboardStats db today).totalOrders = s.totalOrders ∧
      (getDashboardStats db today).totalProducts = s.topProducts.length ∧
      (getDashboardStats db today).totalStocks = s.itemsSold ∧
      (getDashboardStats db today).ordersToday = s.ordersToday ∧
      (getDashboardStats db today).itemsSoldToday = s.itemsSoldToday ∧
      (getDashboardStats db today).dineInToday = s.dineInOrders ∧
      (getDashboardStats db today).takeoutToday = s.takeoutOrders ∧
      (getDashboardStats db today).categoryStats = s.categoryStats ∧
      (getDashboardStats db today).hourlyStats = s.hourlyStats ∧
      (getDashboardStats db today).topProducts = s.topProducts) := by
  constructor
  · intro h
    unfold getDashboardStats
    rw [h]
  · intro s h
    unfold getDashboardStats
    rw [h]
    exact ⟨rfl, rfl, rfl, rfl, rfl, rfl, rfl, rfl, rfl, rfl⟩

/-- C6 witness: both branches of the theorem at concrete stores. -/
theorem getDashboardStats_projection_witness :
    getDashboardStats (fun _ => none) 0 =
      { totalOrders := 0, totalProducts := 0, totalStocks := 0, ordersToday := 0,
        itemsSoldToday := 0, dineInToday := 0, takeoutToday := 0,
        categoryStats := zeroCategoryStats, hourlyStats := [], topProducts := [] } ∧
    (getDashboardStats (fun _ => some c6record) 0).totalStocks = c6record.itemsSold ∧
    (getDashboardStats (fun _ => some c6record) 0).totalProducts = c6record.topProducts.length :=
  ⟨(getDashboardStats_projection (fun _ => none) 0).1 rfl,
   ((getDashboardStats_projection (fun _ => some c6record) 0).2 c6record rfl).2.2.1,
   ((getDashboardStats_projection (fun _ => some c6record) 0).2 c6record rfl).2.1⟩

/-- C7: when the order save succeeded and `Stats.updateStats` then throws,
the handler logs the error and still answers 200/success with the saved
order's id; the saved order is not rolled back (its items remain recorded
in the outcome). -/
theorem postOrder_stats_failure_hidden (raw : RawPayload) (savedId : Nat) (e : String)
    (h1 : raw.items ≠ []) (h2 : truthyNum raw.total = true) :
    (postOrderHandler raw (.ok savedId) (.error e)).status = 200 ∧
    (postOrderHandler raw (.ok savedId) (.error e)).success = true ∧
    (postOrderHandler raw (.ok savedId) (.error e)).orderId = some savedId ∧
    (postOrderHandler raw (.ok savedId) (.error e)).statsErrorLogged = some e ∧
    (postOrderHandler raw (.ok savedId) (.error e)).savedItems ≠ none := by
  unfold postOrderHandler
  have hlen : ¬ raw.items.length = 0 := by
    simpa [List.length_eq_zero] using h1
  rw [if_neg hlen, if_neg (by simp [h2])]
  exact ⟨rfl, rfl, rfl, rfl, by simp⟩

/-- C7 witness. -/
theorem postOrder_stats_failure_hidden_witness :
    (postOrderHandler c7raw (.ok 42) (.error "stats write failed")).status = 200 ∧
    (postOrderHandler c7raw (.ok 42) (.error "stats write failed")).success = true ∧
    (postOrderHandler c7raw (.ok 42) (.error "stats write failed")).orderId = some 42 ∧
    (postOrderHandler c7raw (.ok 42) (.error "stats write failed")).statsErrorLogged
      = some "stats write failed" ∧
    (postOrderHandler c7raw (.ok 42) (.error "stats write failed")).savedItems ≠ none :=
  postOrder_stats_failure_hidden c7raw 42 "stats write failed" (by decide) (by decide)

/-- C8 counterexample: for a payload whose only item has no quantity, the
payload passed to `Stats.updateStats` still has the quantity missing (not
replaced by 1 — only the copy saved in the Order document gets the
default), and the aggregator's quantity sum evaluates to NaN instead of
raising any validation error. -/
theorem missing_quantity_counterexample :
    ((postOrderHandler c8raw (.ok 1) (.ok ())).statsArg.map
        (fun pd => pd.items.map (fun it => it.quantity))) ≠ some [some 1] ∧
    ((postOrderHandler c8raw (.ok 1) (.ok ())).statsArg.map
        (fun pd => pd.items.map (fun it => it.quantity))) = some [none] ∧
    ((postOrderHandler c8raw (.ok 1) (.ok ())).savedItems.map
        (fun l => l.map (fun it => it.quantity))) = some [1] ∧
    jsSumQuantities c8raw.items = none := by
  refine ⟨by decide, by decide, by decide, by decide⟩

/-- C8 amended: `updateStats` performs no validation and raises no error on
a malformed item — the handler defaults a missing quantity to 1 only in the
items written to the Order document and passes the raw payload itself to
the aggregator, whose quantity sum is then NaN. -/
theorem missing_quantity_behavior (raw : RawPayload) (savedId : Nat)
    (statsResult : Except String Unit)
    (h1 : raw.items ≠ []) (h2 : truthyNum raw.total = true) :
    (∃ pd, (postOrderHandler raw (.ok savedId) statsResult).statsArg = some pd ∧
       pd.items = raw.items) ∧
    (postOrderHandler raw (.ok savedId) statsResult).savedItems
      = some (raw.items.map normalizeItem) ∧
    (∀ items : List RawItem, (∃ it ∈ items, it.quantity = none) →
       jsSumQuantities items = none) := by
  unfold postOrderHandler
  have hlen : ¬ raw.items.length = 0 := by
    simpa [List.length_eq_zero] using h1
  rw [if_neg hlen, if_neg (by simp [h2])]
  refine ⟨?_, ?_, fun items h => jsSumQuantities_missing items h⟩
  · by_cases ht : truthyStr raw.type = true
    · rw [if_pos ht]
      exact ⟨raw, rfl, rfl⟩
    · rw [if_neg ht]
      exact ⟨{ raw with type := some "Dine In" }, rfl, rfl⟩
  · by_cases ht : truthyStr raw.type = true
    · rw [if_pos ht]
    · rw [if_neg ht]

/-- C8 amended witness. -/
theorem missing_quantity_behavior_witness :
    (∃ pd, (postOrderHandler c8raw (.ok 1) (.ok ())).statsArg = some pd ∧
       pd.items = c8raw.items) ∧
    (postOrderHandler c8raw (.ok 1) (.ok ())).savedItems
      = some (c8raw.items.map normalizeItem) ∧
    (∀ items : List RawItem, (∃ it ∈ items, it.quantity = none) →
       jsSumQuantities items = none) :=
  missing_quantity_behavior c8raw 1 (.ok ()) (by decide) (by decide)

/-- C9: a payload accepted by the handler with no `type` is mutated to
`type = "Dine In"` before `Stats.updateStats` is invoked; an update with
that type adds 1 to `dineInOrders` and leaves `takeoutOrders` unchanged;
and through this endpoint the neither-counter branch of `updateStats` is
reachable only when the request's `type` was present and equal to neither
"Dine In" nor "Take Out". -/
theorem default_type_dine_in (raw : RawPayload) (savedId : Nat)
    (statsResult : Except String Unit) (db : Nat → Option StatsRecord)
    (today hour now : Nat) (items2 : List Item)
    (h1 : raw.items ≠ []) (h2 : truthyNum raw.total = true) (h3 : raw.type = none) :
    (postOrderHandler raw (.ok savedId) statsResult).statsArg
      = some { raw with type := some "Dine In" } ∧
    (updateStats db today hour now ⟨items2, some "Dine In"⟩).dineInOrders
      = (statsBase db today now).dineInOrders + 1 ∧
    (updateStats db today hour now ⟨items2, some "Dine In"⟩).takeoutOrders
      = (statsBase db today now).takeoutOrders ∧
    (∀ (raw2 : RawPayload) (sid : Nat) (sr : Except String Unit) (pd : RawPayload),
       (postOrderHandler raw2 (.ok sid) sr).statsArg = some pd →
       pd.type ≠ some "Dine In" → pd.type ≠ some "Take Out" →
       ∃ s, raw2.type = some s ∧ s ≠ "Dine In" ∧ s ≠ "Take Out") := by
  refine ⟨?_, updateStats_dineInOrders_of_dineIn db today hour now _ rfl,
    updateStats_takeoutOrders_of_dineIn db today hour now _ rfl, ?_⟩
  · unfold postOrderHandler
    have hlen : ¬ raw.items.length = 0 := by
      simpa [List.length_eq_zero] using h1
    rw [if_neg hlen, if_neg (by simp [h2]), if_neg (by simp [h3, truthyStr])]
  · intro raw2 sid sr pd hArg hNe1 hNe2
    unfold postOrderHandler at hArg
    by_cases hlen2 : raw2.items.length = 0
    · rw [if_pos hlen2] at hArg
      cases hArg
    · rw [if_neg hlen2] at hArg
      by_cases htot : truthyNum raw2.total = true
      · rw [if_neg (by simp [htot])] at hArg
        by_cases ht : truthyStr raw2.type = true
        · rw [if_pos ht] at hArg
          have hpd : pd = raw2 := (Option.some_inj.mp hArg).symm
          have hd1 : raw2.type ≠ some "Dine In" := by
            rw [hpd] at hNe1
            exact hNe1
          have hd2 : raw2.type ≠ some "Take Out" := by
            rw [hpd] at hNe2
            exact hNe2
          rcases (truthyStr_true_iff raw2.type).mp ht with ⟨s, hs, _⟩
          refine ⟨s, hs, ?_, ?_⟩
          · intro hcon
            exact hd1 (by rw [hs, hcon])
          · intro hcon
            exact hd2 (by rw [hs, hcon])
        · rw [if_neg ht] at hArg
          have hpd : pd = { raw2 with type := some "Dine In" } := (Option.some_inj.mp hArg).symm
          exact absurd (by rw [hpd]) hNe1
      · rw [if_pos (by simp [htot])] at hArg
        cases hArg

end POS

namespace POS

/-- C9 witness: the theorem applied to a concrete type-less request. -/
theorem default_type_dine_in_witness :
    (postOrderHandler c9raw (.ok 5) (.ok ())).statsArg
      = some { c9raw with type := some "Dine In" } ∧
    (updateStats (fun _ => none) 0 9 0 ⟨[⟨"Pork Shanghai", 1⟩], some "Dine In"⟩).dineInOrders
      = (statsBase (fun _ => none) 0 0).dineInOrders + 1 :=
  ⟨(default_type_dine_in c9raw 5 (.ok ()) (fun _ => none) 0 9 0 [⟨"Pork Shanghai", 1⟩]
      (by decide) (by decide) (by decide)).1,
   (default_type_dine_in c9raw 5 (.ok ()) (fun _ => none) 0 9 0 [⟨"Pork Shanghai", 1⟩]
      (by decide) (by decide) (by decide)).2.1⟩

/-- C10: `updateStats` keeps only the first 10 entries of the re-sorted
upserted `topProducts` list; an order item whose name is absent from the
current list (for instance because it was truncated away earlier) re-enters
as a fresh entry with only that order's quantity.  In the concrete two-call
scenario, product "P" (quantity 1, truncated by the first call) re-enters
with quantity 3 on the second call although 4 units were sold in total, so
its `topProducts` quantity understates the all-time total. -/
theorem topProducts_truncation :
    (∀ (db : Nat → Option StatsRecord) (today hour now : Nat) (p : OrderPayload),
       (updateStats db today hour now p).topProducts
         = (sortTopProducts (p.items.foldl upsertTopProduct
             (statsBase db today now).topProducts)).take 10) ∧
    (∀ (tops : List TopProduct) (it : Item),
       (∀ tp ∈ tops, tp.name ≠ it.name) →
       upsertTopProduct tops it = tops ++ [{ name := it.name, quantity := it.quantity }]) ∧
    (topQuantityOf c10rec1.topProducts "P" = none ∧
     c10rec1.topProducts.length = 10 ∧
     topQuantityOf c10rec2.topProducts "P" = some 3 ∧
     soldTotalIn "P" (c10payload1.items ++ c10payload2.items) = 4 ∧ (3 : Nat) < 4) :=
  ⟨updateStats_topProducts, upsertTopProduct_append_of_notMem,
    by decide, by decide, by decide, by decide, by decide⟩

/-- C10 witness: the upsert-append fact at a concrete absent name, plus the
concrete re-entry quantity. -/
theorem topProducts_truncation_witness :
    upsertTopProduct [] ⟨"X", 2⟩ = [] ++ [{ name := "X", quantity := 2 }] ∧
    topQuantityOf c10rec2.topProducts "P" = some 3 :=
  ⟨topProducts_truncation.2.1 [] ⟨"X", 2⟩ (by decide),
   topProducts_truncation.2.2.2.2.1⟩

end POS
